import Mathlib

/-!
# Verification of the transfer-routing core of `route_planner.py`

Shallow embedding of the transfer-routing and temporal-enrichment logic of
the Metro Bilbao route planner (`src/route_planner.py`).  Durations and
departure offsets coming from the upstream API are minute counts, modelled
as `Nat`; seconds values are obtained by `* 60` exactly as in the source.
JSON dictionaries are modelled as structures; optional JSON keys whose
site-specific defaults never matter to the claims are flattened to their
value.  Wall-clock fields (`departureTime`, `expectedArrival`, ...) and the
purely presentational formatted strings are outside of the embedding: they
depend on `datetime.now()`.
-/

namespace RoutePlanner

/-- `METRO_NETWORK` (route_planner.py lines 60-112): the three lines, each
with its ordered station-code sequence, in dict insertion order L1, L2, L3. -/
def METRO_NETWORK : List (String × List String) :=
  [ ("L1",
     ["PLE", "SOP", "LAR", "BER", "IBB", "BID", "ALG", "AIB", "NEG", "GOB",
      "ARE", "LAM", "LEI", "AST", "ERA", "LUT", "SIN", "SAR", "DEU", "SAM",
      "IND", "MOY", "ABA", "CAD", "BOL", "ETX"]),
    ("L2",
     ["KAB", "STZ", "PEN", "POR", "ABT", "SES", "URB", "BAG", "BAR", "ANS",
      "GUR", "BAS", "ARZ", "ETX", "BOL", "CAD", "ABN", "MOY", "SAM", "IND"]),
    ("L3",
     ["MAT", "URI", "ZUR", "TXU", "OTX", "KUK", "BOL", "CAD"]) ]

/-- The station sequence of a line of `METRO_NETWORK` (empty for an unknown
line identifier). -/
def lineStations (line : String) : List String :=
  (METRO_NETWORK.lookup line).getD []

/-- Lines 169-177 of `_find_transfer_station`: the loop
`for line, stations in METRO_NETWORK.items(): if s in stations: s_line = line`
assigns, without breaking, so the variable ends up holding the LAST line (in
L1, L2, L3 order) whose sequence contains the station, or `None`. -/
def findLine (station : String) : Option String :=
  METRO_NETWORK.foldl
    (fun acc p => if station ∈ p.2 then some p.1 else acc) none

/-- `_find_transfer_station` (route_planner.py lines 154-193): resolve the
transfer station for an origin/destination pair.  Python's falsy test
`if not origin_line or ...` is the `none` case (line identifiers are
non-empty strings). -/
def _find_transfer_station (origin destination : String) : Option String :=
  let origin_line := findLine origin
  let destination_line := findLine destination
  match origin_line, destination_line with
  | some ol, some dl =>
      if ol = dl then none
      else if (ol = "L1" ∧ dl = "L2") ∨ (ol = "L2" ∧ dl = "L1") then some "SIN"
      else if ol = "L3" ∨ dl = "L3" then some "CAD"
      else none
  | _, _ => none

/-- The trip descriptor of the primary upstream response, with the fields
`_find_transfer_options` reads: `duration` (minutes), `transfer`,
`line`, optional `secondLine`, optional `transferStation`. -/
structure Trip where
  duration : Nat
  transfer : Bool
  line : String
  secondLine : Option String
  transferStation : Option String
deriving DecidableEq

/-- The primary upstream response: the trip descriptor plus the ordered
train list, each train flattened to its `estimated` minutes-until-departure. -/
structure RouteData where
  trip : Trip
  trains : List Nat
deriving DecidableEq

/-- The second (transfer-leg) upstream response: its train list (each train
flattened to its `estimated` offset in minutes) and its trip `duration`
in minutes. -/
structure TransferRoute where
  trains : List Nat
  duration : Nat
deriving DecidableEq

/-- The itinerary option dict built at lines 346-384, restricted to its
non-wall-clock, non-formatted fields.  All durations/offsets in seconds. -/
structure TransferOption where
  firstLegFrom : String
  firstLegTo : String
  firstLegLine : String
  firstLegDuration : Nat
  firstLegDeparture : Nat
  firstLegArrival : Nat
  transferWait : Nat
  secondLegFrom : String
  secondLegTo : String
  secondLegLine : String
  secondLegDuration : Nat
  secondLegDeparture : Nat
  totalDuration : Nat
deriving DecidableEq

/-- Lines 269-277: take the API's `transferStation` hint unless it is
missing, empty (falsy) or the sentinel `"Unknown"`; otherwise compute it
with `_find_transfer_station`, and if that also fails use `"Unknown"`. -/
def resolveStationCode (api : Option String) (origin destination : String) :
    String :=
  let ts : Option String :=
    match api with
    | none => _find_transfer_station origin destination
    | some s =>
        if s = "" ∨ s = "Unknown" then _find_transfer_station origin destination
        else some s
  ts.getD "Unknown"

/-- Lines 295-333: the transfer wait and the second-leg duration (both in
seconds), given the arrival-at-transfer offset, the step-2 second-leg
estimate, and the outcome of the second upstream query.  The `try/except`
of the source is the `Except` match: any failure of the second fetch is
caught here and yields the 30-second floor wait with the estimate kept.
On success, the `for ... break / else` scan of the train list is
`List.find?`; the second-leg duration is overwritten from the live trip
duration only inside the `if transfer_route.get("trains"):` block. -/
def transferTiming (arrival_at_transfer_sec second_leg_estimate_sec : Nat)
    (fetch : Except String TransferRoute) : Nat × Nat :=
  match fetch with
  | Except.error _ => (30, second_leg_estimate_sec)
  | Except.ok tr =>
      match tr.trains with
      | [] => (30, second_leg_estimate_sec)
      | t0 :: _ =>
          let wait :=
            match tr.trains.find?
                (fun t => decide (arrival_at_transfer_sec ≤ t * 60)) with
            | some t => max 30 (t * 60 - arrival_at_transfer_sec)
            | none => max 30 (t0 * 60)
          (wait, tr.duration * 60)

/-- `_find_transfer_options` (route_planner.py lines 251-388).  The second
upstream call `metro_client.get_route_info(transfer_station, destination)`
is the explicit argument `fetch`: `Except.ok` a `TransferRoute` on success,
`Except.error` when the awaited call raises.  The function never propagates
that error: it is total and always returns a (possibly empty) list. -/
def _find_transfer_options (origin destination : String) (rd : RouteData)
    (fetch : Except String TransferRoute) : List TransferOption :=
  if rd.trip.transfer then
    let transfer_station := resolveStationCode rd.trip.transferStation origin destination
    let first_leg_duration_sec := (rd.trip.duration / 2) * 60
    let first_train_departure_sec := (rd.trains.headD 0) * 60
    let arrival_at_transfer_sec := first_train_departure_sec + first_leg_duration_sec
    let second_line := rd.trip.secondLine.getD rd.trip.line
    let second_leg_estimate_sec :=
      (rd.trip.duration - first_leg_duration_sec / 60) * 60
    let wd := transferTiming arrival_at_transfer_sec second_leg_estimate_sec fetch
    let transfer_wait_sec := wd.1
    let second_leg_duration_sec := wd.2
    let total_time_sec :=
      first_leg_duration_sec + transfer_wait_sec + second_leg_duration_sec
    [{ firstLegFrom := origin
       firstLegTo := transfer_station
       firstLegLine := rd.trip.line
       firstLegDuration := first_leg_duration_sec
       firstLegDeparture := first_train_departure_sec
       firstLegArrival := arrival_at_transfer_sec
       transferWait := transfer_wait_sec
       secondLegFrom := transfer_station
       secondLegTo := destination
       secondLegLine := second_line
       secondLegDuration := second_leg_duration_sec
       secondLegDeparture := arrival_at_transfer_sec + transfer_wait_sec
       totalDuration := total_time_sec }]
  else []

/-- Unfolding of the station-to-line scan over the three concrete lines:
the last match wins. -/
theorem findLine_eq (s : String) :
    findLine s =
      if s ∈ lineStations "L3" then some "L3"
      else if s ∈ lineStations "L2" then some "L2"
      else if s ∈ lineStations "L1" then some "L1"
      else none := by
  simp only [findLine, METRO_NETWORK, List.foldl, lineStations, List.lookup]
  rfl

/-- `findLine` only ever produces one of the three line identifiers. -/
theorem findLine_range (s l : String) (h : findLine s = some l) :
    l = "L1" ∨ l = "L2" ∨ l = "L3" := by
  rw [findLine_eq] at h
  split at h
  · exact Or.inr (Or.inr (Option.some.inj h).symm)
  · split at h
    · exact Or.inr (Or.inl (Option.some.inj h).symm)
    · split at h
      · exact Or.inl (Option.some.inj h).symm
      · exact absurd h (by simp)

/-- Lines 283-288: the arrival-at-transfer offset in seconds, the soonest
origin train's departure (0 when the train list is empty) plus the halved
first-leg duration. -/
def arrival_at_transfer (rd : RouteData) : Nat :=
  (rd.trains.headD 0) * 60 + (rd.trip.duration / 2) * 60

/-- The transfer wait produced by `transferTiming` never drops below the
30-second floor, in any branch. -/
theorem transferTiming_fst_ge (a e : Nat) (f : Except String TransferRoute) :
    30 ≤ (transferTiming a e f).1 := by
  rcases f with msg | tr
  · simp [transferTiming]
  · rcases tr with ⟨trains, dur⟩
    cases trains with
    | nil => simp [transferTiming]
    | cons t0 ts =>
        simp only [transferTiming]
        cases hfind : (t0 :: ts).find? (fun t => decide (a ≤ t * 60)) with
        | none => simp [hfind]
        | some t => simp [hfind]

/-- Characterization of membership in the result of
`_find_transfer_options`: the list is empty unless the trip requires a
transfer, in which case it holds exactly one option whose timing fields
are the source's `let`-bound quantities. -/
theorem mem_options_eq {origin destination : String} {rd : RouteData}
    {fetch : Except String TransferRoute} {opt : TransferOption}
    (h : opt ∈ _find_transfer_options origin destination rd fetch) :
    rd.trip.transfer = true ∧
    opt.firstLegDuration = (rd.trip.duration / 2) * 60 ∧
    opt.firstLegDeparture = (rd.trains.headD 0) * 60 ∧
    opt.firstLegArrival = opt.firstLegDeparture + opt.firstLegDuration ∧
    opt.transferWait =
      (transferTiming (arrival_at_transfer rd)
        ((rd.trip.duration - ((rd.trip.duration / 2) * 60) / 60) * 60) fetch).1 ∧
    opt.secondLegDuration =
      (transferTiming (arrival_at_transfer rd)
        ((rd.trip.duration - ((rd.trip.duration / 2) * 60) / 60) * 60) fetch).2 ∧
    opt.secondLegDeparture = opt.firstLegArrival + opt.transferWait ∧
    opt.totalDuration =
      opt.firstLegDuration + opt.transferWait + opt.secondLegDuration := by
  unfold _find_transfer_options at h
  split at h
  case isTrue ht =>
    simp only [List.mem_singleton] at h
    subst h
    exact ⟨ht, rfl, rfl, rfl, rfl, rfl, rfl, rfl⟩
  case isFalse => simp at h

/-- Concrete primary response of the spec's end-to-end example: total
duration 20 minutes, transfer required, soonest train in 3 minutes,
no API transfer-station hint. -/
def rdEx : RouteData := ⟨⟨20, true, "L1", some "L2", none⟩, [3]⟩

/-- Concrete second-leg response of the end-to-end example: trains in 5, 9
and 14 minutes, trip duration 11 minutes. -/
def trEx : TransferRoute := ⟨[5, 9, 14], 11⟩

/-- The option the builder produces on `rdEx`/`trEx` (all values in
seconds): first leg 600, departure 180, arrival 780, wait 60, second leg
660, second-leg departure 840, total 1320. -/
def optEx : TransferOption :=
  ⟨"PLE", "SIN", "L1", 600, 180, 780, 60, "SIN", "KAB", "L2", 660, 840, 1320⟩

/-- C1: the claim says the resolved transfer station lies on both the
origin's and the destination's line sequence, in particular that the
L1/L2 station "SIN" lies on both L1 and L2.  The code violates this: for
the L1/L2 pair (PLE, KAB) it resolves "SIN", which is a member of the L1
sequence but absent from the `METRO_NETWORK` L2 sequence (the L2 list is
truncated and mistyped — it even holds the code "ABN" that exists nowhere
else). -/
theorem C1_sin_not_on_l2 :
    _find_transfer_station "PLE" "KAB" = some "SIN" ∧
    "PLE" ∈ lineStations "L1" ∧ "KAB" ∈ lineStations "L2" ∧
    "SIN" ∈ lineStations "L1" ∧ "SIN" ∉ lineStations "L2" := by decide

/-- C2 counterexample: "CAD" and "PLE" are both members of the L1 station
sequence, yet the resolver returns `some "CAD"` rather than `none`
(because "CAD" also lies on L3 and the membership scan keeps the last
matching line). -/
theorem C2_counterexample :
    "CAD" ∈ lineStations "L1" ∧ "PLE" ∈ lineStations "L1" ∧
    _find_transfer_station "CAD" "PLE" = some "CAD" := by decide

/-- C2 (amended): with each station's line resolved as the LAST line in
L1, L2, L3 order whose sequence contains it (`findLine`), the resolver
returns `none` when the two resolved lines coincide, "CAD" when they
differ and either is L3, and "SIN" when they differ and neither is L3
(i.e. the resolved pair is {L1, L2}). -/
theorem C2_resolver_on_resolved_lines (o d lo ld : String)
    (ho : findLine o = some lo) (hd : findLine d = some ld) :
    (lo = ld → _find_transfer_station o d = none) ∧
    (lo ≠ ld →
      ((lo = "L3" ∨ ld = "L3") → _find_transfer_station o d = some "CAD") ∧
      (¬(lo = "L3" ∨ ld = "L3") → _find_transfer_station o d = some "SIN")) := by
  have hro := findLine_range o lo ho
  have hrd := findLine_range d ld hd
  simp only [_find_transfer_station, ho, hd]
  rcases hro with h1 | h1 | h1 <;> rcases hrd with h2 | h2 | h2 <;>
    subst h1 <;> subst h2 <;> refine ⟨?_, ?_⟩ <;> intro hx <;> simp_all

/-- C2 witness: for PLE (resolved line L1) and KAB (resolved line L2) the
amended rule yields the designated interchange "SIN". -/
theorem C2_witness : _find_transfer_station "PLE" "KAB" = some "SIN" :=
  ((C2_resolver_on_resolved_lines "PLE" "KAB" "L1" "L2"
      (by decide) (by decide)).2 (by decide)).2 (by decide)

/-- C3: every produced itinerary option satisfies
`totalDuration = firstLegDuration + transferWait + secondLegDuration`
exactly, whatever branch produced it. -/
theorem C3_total_duration_additive (origin destination : String)
    (rd : RouteData) (fetch : Except String TransferRoute)
    (opt : TransferOption)
    (h : opt ∈ _find_transfer_options origin destination rd fetch) :
    opt.totalDuration =
      opt.firstLegDuration + opt.transferWait + opt.secondLegDuration :=
  (mem_options_eq h).2.2.2.2.2.2.2

/-- C3 witness: the additive invariant at the end-to-end example
(1320 = 600 + 60 + 660). -/
theorem C3_witness :
    optEx.totalDuration =
      optEx.firstLegDuration + optEx.transferWait + optEx.secondLegDuration :=
  C3_total_duration_additive "PLE" "KAB" rdEx (Except.ok trEx) optEx (by decide)

/-- C4: every produced option's transfer wait is at least the 30-second
floor, in every branch, even when the second-leg schedule lists trains
departing before the computed arrival at the transfer station. -/
theorem C4_transfer_wait_floor (origin destination : String)
    (rd : RouteData) (fetch : Except String TransferRoute)
    (opt : TransferOption)
    (h : opt ∈ _find_transfer_options origin destination rd fetch) :
    30 ≤ opt.transferWait := by
  rw [(mem_options_eq h).2.2.2.2.1]
  exact transferTiming_fst_ge _ _ _

/-- The option produced when the only second-leg train departs exactly at
the arrival-at-transfer offset (13 minutes): the computed slack is 0, so
the wait is the 30-second floor. -/
def optC4 : TransferOption :=
  ⟨"PLE", "SIN", "L1", 600, 180, 780, 30, "SIN", "KAB", "L2", 660, 810, 1290⟩

/-- C4 witness: a second-leg train at exactly the arrival offset would
give zero wait; the floor forces 30 seconds. -/
theorem C4_witness : 30 ≤ optC4.transferWait :=
  C4_transfer_wait_floor "PLE" "KAB" rdEx (Except.ok ⟨[13], 11⟩) optC4 (by decide)

/-- C5: when the second upstream query fails, the failure is absorbed (the
builder is total and still returns exactly one option) and the option has
the floor wait of 30 seconds and the step-2 estimated second-leg duration
`(total - total / 2) * 60`. -/
theorem C5_error_branch (origin destination : String) (rd : RouteData)
    (msg : String) (h : rd.trip.transfer = true) :
    ∃ opt,
      _find_transfer_options origin destination rd (Except.error msg) = [opt] ∧
      opt.transferWait = 30 ∧
      opt.secondLegDuration = (rd.trip.duration - rd.trip.duration / 2) * 60 ∧
      opt.totalDuration = opt.firstLegDuration + 30 + opt.secondLegDuration := by
  unfold _find_transfer_options
  rw [if_pos h]
  refine ⟨_, rfl, rfl, ?_, rfl⟩
  dsimp only
  simp only [transferTiming]
  omega

/-- C5 witness: the fallback option at the end-to-end example's primary
response when the second fetch raises. -/
theorem C5_witness :
    ∃ opt,
      _find_transfer_options "PLE" "KAB" rdEx (Except.error "timeout") = [opt] ∧
      opt.transferWait = 30 ∧
      opt.secondLegDuration = (rdEx.trip.duration - rdEx.trip.duration / 2) * 60 ∧
      opt.totalDuration = opt.firstLegDuration + 30 + opt.secondLegDuration :=
  C5_error_branch "PLE" "KAB" rdEx "timeout" (by decide)

/-- On a successful second fetch with a non-empty train list, the
second-leg duration is overwritten with the live trip duration. -/
theorem transferTiming_ok_snd (a e : Nat) (tr : TransferRoute) (t0 : Nat)
    (ts : List Nat) (h : tr.trains = t0 :: ts) :
    (transferTiming a e (Except.ok tr)).2 = tr.duration * 60 := by
  obtain ⟨trs, dur⟩ := tr
  dsimp only at h
  subst h
  rfl

/-- On a successful second fetch, when the in-order scan finds a train
departing at or after the arrival offset, the wait is that train's slack,
floored at 30 seconds. -/
theorem transferTiming_ok_found (a e : Nat) (tr : TransferRoute) (t0 : Nat)
    (ts : List Nat) (h : tr.trains = t0 :: ts) (t : Nat)
    (hf : tr.trains.find? (fun u => decide (a ≤ u * 60)) = some t) :
    (transferTiming a e (Except.ok tr)).1 = max 30 (t * 60 - a) := by
  obtain ⟨trs, dur⟩ := tr
  dsimp only at h hf
  subst h
  simp only [transferTiming, hf]

/-- On a successful second fetch with a non-empty train list but no
qualifying train, the wait falls back to the first listed train's own
departure offset, floored at 30 seconds. -/
theorem transferTiming_ok_none (a e : Nat) (tr : TransferRoute) (t0 : Nat)
    (ts : List Nat) (h : tr.trains = t0 :: ts)
    (hf : tr.trains.find? (fun u => decide (a ≤ u * 60)) = none) :
    (transferTiming a e (Except.ok tr)).1 = max 30 (t0 * 60) := by
  obtain ⟨trs, dur⟩ := tr
  dsimp only at h hf
  subst h
  simp only [transferTiming, hf]

/-- C6: on a successful second-leg query with a non-empty train list, the
builder scans the list in order for the first train departing at or after
the arrival-at-transfer offset and uses its slack (floored at 30 s) as the
wait; if none qualifies it uses the first listed train's own offset
(floored); and the second-leg duration is the live trip duration. -/
theorem C6_live_selection (origin destination : String) (rd : RouteData)
    (tr : TransferRoute) (t0 : Nat) (ts : List Nat)
    (htransfer : rd.trip.transfer = true) (htrains : tr.trains = t0 :: ts) :
    ∃ opt,
      _find_transfer_options origin destination rd (Except.ok tr) = [opt] ∧
      opt.secondLegDuration = tr.duration * 60 ∧
      (∀ t, tr.trains.find?
          (fun u => decide (arrival_at_transfer rd ≤ u * 60)) = some t →
        opt.transferWait = max 30 (t * 60 - arrival_at_transfer rd)) ∧
      (tr.trains.find?
          (fun u => decide (arrival_at_transfer rd ≤ u * 60)) = none →
        opt.transferWait = max 30 (t0 * 60)) := by
  unfold _find_transfer_options
  rw [if_pos htransfer]
  refine ⟨_, rfl, ?_, ?_, ?_⟩
  · exact transferTiming_ok_snd _ _ tr t0 ts htrains
  · intro t hf
    exact transferTiming_ok_found (arrival_at_transfer rd) _ tr t0 ts htrains t hf
  · intro hf
    exact transferTiming_ok_none (arrival_at_transfer rd) _ tr t0 ts htrains hf

/-- C6 witness: the spec's end-to-end example (total 20 min, soonest origin
train 3 min, second-leg trains 5/9/14 min, live duration 11 min) together
with the fully evaluated option: first leg 600 s, arrival 780 s, the
14-minute train is selected, wait 60 s, second leg 660 s, total 1320 s. -/
theorem C6_witness :
    (∃ opt,
      _find_transfer_options "PLE" "KAB" rdEx (Except.ok trEx) = [opt] ∧
      opt.secondLegDuration = trEx.duration * 60 ∧
      (∀ t, trEx.trains.find?
          (fun u => decide (arrival_at_transfer rdEx ≤ u * 60)) = some t →
        opt.transferWait = max 30 (t * 60 - arrival_at_transfer rdEx)) ∧
      (trEx.trains.find?
          (fun u => decide (arrival_at_transfer rdEx ≤ u * 60)) = none →
        opt.transferWait = max 30 (5 * 60))) ∧
    _find_transfer_options "PLE" "KAB" rdEx (Except.ok trEx) = [optEx] :=
  ⟨C6_live_selection "PLE" "KAB" rdEx trEx 5 [9, 14] (by decide) (by decide),
   by decide⟩

/-- The option produced on `rdEx` when the second fetch succeeds with an
EMPTY train list and live duration 11: the second-leg duration keeps the
halved estimate 600 s instead of being overwritten to 660 s. -/
def optC7 : TransferOption :=
  ⟨"PLE", "SIN", "L1", 600, 180, 780, 30, "SIN", "KAB", "L2", 600, 810, 1230⟩

/-- C7 counterexample: a successful second response whose train list is
empty does NOT get its live trip duration (11 min = 660 s) into the
option; the halved estimate (600 s) is kept, because the overwrite sits
inside the `if transfer_route.get("trains"):` block. -/
theorem C7_counterexample :
    _find_transfer_options "PLE" "KAB" rdEx
      (Except.ok (⟨[], 11⟩ : TransferRoute)) = [optC7] ∧
    optC7.secondLegDuration ≠ 11 * 60 := by decide

/-- C7 (amended): on a successful second query the produced option's
second-leg duration equals the live trip duration only when the returned
train list is non-empty; with an empty list the step-2 halved estimate is
kept. -/
theorem C7_live_overwrite (origin destination : String) (rd : RouteData)
    (tr : TransferRoute) (htransfer : rd.trip.transfer = true) :
    ∃ opt,
      _find_transfer_options origin destination rd (Except.ok tr) = [opt] ∧
      (tr.trains ≠ [] → opt.secondLegDuration = tr.duration * 60) ∧
      (tr.trains = [] →
        opt.secondLegDuration = (rd.trip.duration - rd.trip.duration / 2) * 60) := by
  unfold _find_transfer_options
  rw [if_pos htransfer]
  refine ⟨_, rfl, ?_, ?_⟩
  · intro hne
    cases htr : tr.trains with
    | nil => exact absurd htr hne
    | cons t0 ts => exact transferTiming_ok_snd _ _ tr t0 ts htr
  · intro he
    obtain ⟨trs, dur⟩ := tr
    dsimp only at he ⊢
    subst he
    simp only [transferTiming]
    omega

/-- C7 witness: with the non-empty end-to-end second response the live
duration 11 min is written through. -/
theorem C7_witness :
    ∃ opt,
      _find_transfer_options "PLE" "KAB" rdEx (Except.ok trEx) = [opt] ∧
      (trEx.trains ≠ [] → opt.secondLegDuration = trEx.duration * 60) ∧
      (trEx.trains = [] →
        opt.secondLegDuration = (rdEx.trip.duration - rdEx.trip.duration / 2) * 60) :=
  C7_live_overwrite "PLE" "KAB" rdEx trEx (by decide)

/-- C8 counterexample: the station code "XXX" lies on no line, yet the
resolver answers the same `none` it answers for the same-line pair
(PLE, SOP) — there is no distinguishable "undetermined" outcome, and
`none` is not returned exactly on same-line pairs. -/
theorem C8_counterexample :
    findLine "XXX" = none ∧
    _find_transfer_station "XXX" "PLE" = none ∧
    _find_transfer_station "PLE" "SOP" = none := by decide

/-- C8 (amended): the resolver returns `none` exactly when the origin or
the destination lies on no known line OR the two resolved lines coincide;
an unknown station is therefore indistinguishable from the no-transfer
outcome. -/
theorem C8_none_iff (o d : String) :
    _find_transfer_station o d = none ↔
      (findLine o = none ∨ findLine d = none ∨ findLine o = findLine d) := by
  cases ho : findLine o with
  | none => simp [_find_transfer_station, ho]
  | some lo =>
    cases hd : findLine d with
    | none => simp [_find_transfer_station, ho, hd]
    | some ld =>
      have hro := findLine_range o lo ho
      have hrd := findLine_range d ld hd
      simp only [_find_transfer_station, ho, hd]
      rcases hro with h1 | h1 | h1 <;> rcases hrd with h2 | h2 | h2 <;>
        subst h1 <;> subst h2 <;> decide

/-- C8 witness: the amended rule instantiated at the unknown code "XXX"
paired with PLE. -/
theorem C8_witness :
    _find_transfer_station "XXX" "PLE" = none ↔
      (findLine "XXX" = none ∨ findLine "PLE" = none ∨
        findLine "XXX" = findLine "PLE") :=
  C8_none_iff "XXX" "PLE"

/-- C9: the first-leg duration is the upstream total halved with
truncating integer division (in seconds), an empty origin train list
yields departure offset 0, and in the fallback (error) branch the
second-leg estimate is the remainder, so both legs sum back to the
upstream total. -/
theorem C9_halved_split (origin destination : String) (rd : RouteData)
    (fetch : Except String TransferRoute) (opt : TransferOption)
    (h : opt ∈ _find_transfer_options origin destination rd fetch) :
    opt.firstLegDuration = (rd.trip.duration / 2) * 60 ∧
    (rd.trains = [] → opt.firstLegDeparture = 0) ∧
    (∀ msg, fetch = Except.error msg →
      opt.secondLegDuration = (rd.trip.duration - rd.trip.duration / 2) * 60 ∧
      opt.firstLegDuration + opt.secondLegDuration = rd.trip.duration * 60) := by
  obtain ⟨hT, h1, h2, h3, h4, h5, h6, h7⟩ := mem_options_eq h
  refine ⟨h1, ?_, ?_⟩
  · intro he
    rw [h2, he]
    rfl
  · intro msg hmsg
    subst hmsg
    have hs : opt.secondLegDuration = (rd.trip.duration - rd.trip.duration / 2) * 60 := by
      rw [h5]
      simp only [transferTiming]
      omega
    refine ⟨hs, ?_⟩
    rw [h1, hs]
    omega

/-- Primary response with odd total duration (21 min), transfer required,
and an empty train list, to exercise the truncating halving and the
zero-departure default. -/
def rdC9 : RouteData := ⟨⟨21, true, "L1", none, none⟩, []⟩

/-- The option produced on `rdC9` when the second fetch fails: first leg
(21 / 2) * 60 = 600 s, departure 0, wait 30 s, second leg 660 s. -/
def optC9 : TransferOption :=
  ⟨"PLE", "SIN", "L1", 600, 0, 600, 30, "SIN", "KAB", "L1", 660, 630, 1290⟩

/-- C9 witness: total 21 min splits into 600 s + 660 s = 21 * 60 s, and
the empty train list gives departure offset 0. -/
theorem C9_witness :
    optC9.firstLegDuration = (rdC9.trip.duration / 2) * 60 ∧
    (rdC9.trains = [] → optC9.firstLegDeparture = 0) ∧
    (∀ msg, (Except.error "boom" : Except String TransferRoute) = Except.error msg →
      optC9.secondLegDuration = (rdC9.trip.duration - rdC9.trip.duration / 2) * 60 ∧
      optC9.firstLegDuration + optC9.secondLegDuration = rdC9.trip.duration * 60) :=
  C9_halved_split "PLE" "KAB" rdC9 (Except.error "boom") optC9 (by decide)

/-- C10: the offsets inside every produced option are mutually consistent:
first-leg arrival = first-leg departure + first-leg duration, and
second-leg departure = first-leg arrival + transfer wait, in every
branch. -/
theorem C10_offsets_consistent (origin destination : String)
    (rd : RouteData) (fetch : Except String TransferRoute)
    (opt : TransferOption)
    (h : opt ∈ _find_transfer_options origin destination rd fetch) :
    opt.firstLegArrival = opt.firstLegDeparture + opt.firstLegDuration ∧
    opt.secondLegDeparture = opt.firstLegArrival + opt.transferWait :=
  ⟨(mem_options_eq h).2.2.2.1, (mem_options_eq h).2.2.2.2.2.2.1⟩

/-- C10 witness: 780 = 180 + 600 and 840 = 780 + 60 on the end-to-end
example's option. -/
theorem C10_witness :
    optEx.firstLegArrival = optEx.firstLegDeparture + optEx.firstLegDuration ∧
    optEx.secondLegDeparture = optEx.firstLegArrival + optEx.transferWait :=
  C10_offsets_consistent "PLE" "KAB" rdEx (Except.ok trEx) optEx (by decide)

end RoutePlanner
